import Mathlib

/-
Verification development for the dc-import-validator pipeline.

Shallow embedding of the Python sources in `scripts/`:
  - apply_warn_only.py      (apply_warn_only core loop, has_blockers)
  - min_value_check.py      (run, _parse_min_value, NEGATIVE_ALLOWED_KEYWORDS)
  - structural_lint_error_count.py (compute_structural_lint_count, run)
  - fluctuation_utils.py    (_numeric, _parse_date, _observation_period_days,
                             _compute_technical_signals)
  - run_validation.py       (main's exit-code computation)

Python floats are embedded as exact rationals (ℚ); machine floating point
rounding is not modelled.  Python str values are Lean Strings; CSV cells and
JSON values are modelled by explicit inductive types.  `float()` is modelled
on plain finite decimal/exponent literals (inf/nan/underscore literals parse
to none).
-/

/-- Scalar Python/JSON value as it appears in params and point values. -/
inductive PyVal where
  | vnone : PyVal
  | num (q : ℚ) : PyVal
  | str (s : String) : PyVal
  | bool (b : Bool) : PyVal
deriving DecidableEq

/-- Absolute value on ℚ written the way Python's abs computes it. -/
def pyAbs (q : ℚ) : ℚ := if q < 0 then -q else q

/-- Whitespace test matching the characters Python strip() removes in the
ASCII range (space, tab, carriage return, newline). -/
def isWs (c : Char) : Bool := c = ' ' || c = '\t' || c = '\r' || c = '\n'

/-- Drop leading and trailing whitespace from a character list (str.strip()). -/
def stripChars (cs : List Char) : List Char :=
  ((cs.dropWhile isWs).reverse.dropWhile isWs).reverse

/-- Python str.strip() on a String. -/
def pyStrip (s : String) : String := ⟨stripChars s.data⟩

/-- Lowercase one ASCII character (str.lower() on the ASCII range). -/
def lowerChar (c : Char) : Char :=
  if 'A' ≤ c && c ≤ 'Z' then Char.ofNat (c.toNat + 32) else c

/-- Uppercase one ASCII character (str.upper() on the ASCII range). -/
def upperChar (c : Char) : Char :=
  if 'a' ≤ c && c ≤ 'z' then Char.ofNat (c.toNat - 32) else c

/-- Python str.lower() (ASCII). -/
def pyLower (s : String) : String := ⟨s.data.map lowerChar⟩

/-- Python str.upper() (ASCII). -/
def pyUpper (s : String) : String := ⟨s.data.map upperChar⟩

/-- Substring test on character lists: needle occurs contiguously in hay
(Python's `needle in hay`). -/
def listHasSub (needle : List Char) : List Char → Bool
  | [] => needle.isEmpty
  | c :: rest => needle.isPrefixOf (c :: rest) || listHasSub needle rest

/-- Python's `kw in s` substring containment on Strings. -/
def strHasSub (s kw : String) : Bool := listHasSub kw.data s.data

/-- Python str.startswith on Strings. -/
def strStartsWith (s p : String) : Bool := p.data.isPrefixOf s.data

/-- Numeric value of a digit-character list read in base 10. -/
def digitsToNat (ds : List Char) : Nat :=
  ds.foldl (fun a c => a * 10 + (c.toNat - 48)) 0

/-- Consume an optional sign; true means negative. -/
def parseSign : List Char → Bool × List Char
  | '+' :: r => (false, r)
  | '-' :: r => (true, r)
  | l => (false, l)

/-- Split a character list into its leading digit run and the remainder. -/
def splitDigits (l : List Char) : List Char × List Char :=
  (l.takeWhile Char.isDigit, l.dropWhile Char.isDigit)

/-- Parse a stripped decimal literal into (negative, mantissa, fraction length,
exponent): the pieces of sign·mantissa·10^(exponent − fraction length).
Returns none when Python float() would raise ValueError (modulo the
non-finite and underscore literals noted at the top of the file). -/
def parseFloatParts (cs : List Char) : Option (Bool × Nat × Nat × Int) :=
  let (neg, r0) := parseSign cs
  let (ip, r1) := splitDigits r0
  let (fp, r2) :=
    match r1 with
    | '.' :: r => splitDigits r
    | _ => ([], r1)
  if ip.isEmpty && fp.isEmpty then none
  else
    match r2 with
    | [] => some (neg, digitsToNat (ip ++ fp), fp.length, 0)
    | 'e' :: r3 =>
      let (eneg, r4) := parseSign r3
      let (ed, r5) := splitDigits r4
      if ed.isEmpty || !r5.isEmpty then none
      else some (neg, digitsToNat (ip ++ fp), fp.length,
                 if eneg then -(digitsToNat ed : Int) else (digitsToNat ed : Int))
    | 'E' :: r3 =>
      let (eneg, r4) := parseSign r3
      let (ed, r5) := splitDigits r4
      if ed.isEmpty || !r5.isEmpty then none
      else some (neg, digitsToNat (ip ++ fp), fp.length,
                 if eneg then -(digitsToNat ed : Int) else (digitsToNat ed : Int))
    | _ => none

/-- Rational value of the parsed pieces of a decimal literal. -/
def partsToRat (neg : Bool) (mant : Nat) (k : Nat) (ex : Int) : ℚ :=
  let base : ℚ := (mant : ℚ) / ((10 : ℚ) ^ k)
  let scaled : ℚ :=
    if 0 ≤ ex then base * ((10 : ℚ) ^ ex.toNat) else base / ((10 : ℚ) ^ (-ex).toNat)
  if neg then -scaled else scaled

/-- Python float(s) on a string: strip whitespace, then parse a decimal
literal; none models ValueError/TypeError. -/
def pyFloatStr (s : String) : Option ℚ :=
  (parseFloatParts (stripChars s.data)).map
    (fun p => partsToRat p.1 p.2.1 p.2.2.1 p.2.2.2)

/-- Proleptic Gregorian calendar date, as produced by `_parse_date`
(datetime with the time part always midnight). -/
structure PyDate where
  year : Nat
  month : Nat
  day : Nat
deriving DecidableEq, Repr

/-- Gregorian leap-year test. -/
def isLeapYear (y : Nat) : Bool := y % 4 = 0 && (y % 100 ≠ 0 || y % 400 = 0)

/-- Number of days in a month of a given year (0 for an invalid month). -/
def monthLength (y m : Nat) : Nat :=
  match m with
  | 1 => 31
  | 2 => if isLeapYear y then 29 else 28
  | 3 => 31
  | 4 => 30
  | 5 => 31
  | 6 => 30
  | 7 => 31
  | 8 => 31
  | 9 => 30
  | 10 => 31
  | 11 => 30
  | 12 => 31
  | _ => 0

/-- Days in the months strictly before month m of year y. -/
def daysBeforeMonth (y m : Nat) : Nat :=
  (List.range (m - 1)).foldl (fun a i => a + monthLength y (i + 1)) 0

/-- Python datetime.toordinal(): day number of the date in the proleptic
Gregorian calendar with 0001-01-01 as day 1. -/
def toOrdinal (dt : PyDate) : Nat :=
  365 * (dt.year - 1) + (dt.year - 1) / 4 - (dt.year - 1) / 100 + (dt.year - 1) / 400
    + daysBeforeMonth dt.year dt.month + dt.day

/-- Signed day difference of two datetimes ((b - a).days). -/
def dateGapDays (a b : PyDate) : Int := (toOrdinal b : Int) - (toOrdinal a : Int)

/-- Validity of a parsed calendar date exactly as datetime() accepts it. -/
def validDate (y m d : Nat) : Bool :=
  1 ≤ y && y ≤ 9999 && 1 ≤ m && m ≤ 12 && 1 ≤ d && d ≤ monthLength y m

/-- Parse a 10-character %Y-%m-%d slice (strptime: 4-digit year, then the
only digit split that fills 10 characters, 2-digit month and day),
validating the date as datetime() does. -/
def parseYMD (cs : List Char) : Option PyDate :=
  match cs with
  | [y1, y2, y3, y4, '-', m1, m2, '-', d1, d2] =>
    if (y1.isDigit && y2.isDigit && y3.isDigit && y4.isDigit
        && m1.isDigit && m2.isDigit && d1.isDigit && d2.isDigit) then
      let y := digitsToNat [y1, y2, y3, y4]
      let m := digitsToNat [m1, m2]
      let d := digitsToNat [d1, d2]
      if validDate y m d then some ⟨y, m, d⟩ else none
    else none
  | _ => none

/-- Parse a 7-character %Y-%m slice; strptime defaults the day to 1. -/
def parseYM (cs : List Char) : Option PyDate :=
  match cs with
  | [y1, y2, y3, y4, '-', m1, m2] =>
    if (y1.isDigit && y2.isDigit && y3.isDigit && y4.isDigit
        && m1.isDigit && m2.isDigit) then
      let y := digitsToNat [y1, y2, y3, y4]
      let m := digitsToNat [m1, m2]
      if validDate y m 1 then some ⟨y, m, 1⟩ else none
    else none
  | _ => none

/-- Parse a 4-character %Y slice; strptime defaults month and day to 1. -/
def parseY (cs : List Char) : Option PyDate :=
  match cs with
  | [y1, y2, y3, y4] =>
    if (y1.isDigit && y2.isDigit && y3.isDigit && y4.isDigit) then
      let y := digitsToNat [y1, y2, y3, y4]
      if validDate y 1 1 then some ⟨y, 1, 1⟩ else none
    else none
  | _ => none

/-- Embedding of `_parse_date`: strip, then try %Y-%m-%d on the first 10
characters, %Y-%m on the first 7, %Y on the first 4, in that order, each
attempted only when the string is long enough; None when all fail. -/
def parse_date (s : String) : Option PyDate :=
  let cs := stripChars s.data
  let t10 := if cs.length ≥ 10 then parseYMD (cs.take 10) else none
  let t7 := if cs.length ≥ 7 then parseYM (cs.take 7) else none
  let t4 := if cs.length ≥ 4 then parseY (cs.take 4) else none
  t10 <|> t7 <|> t4

/-- Consume a digit run followed by a given letter; on success return its
numeric value and the remainder, otherwise (0, input) for an absent
optional group of the duration pattern. -/
def takeNumThen (letter : Char) (cs : List Char) : Nat × List Char :=
  let ds := cs.takeWhile Char.isDigit
  let rest := cs.dropWhile Char.isDigit
  match ds, rest with
  | _ :: _, c :: r => if c = letter then (digitsToNat ds, r) else (0, cs)
  | _, _ => (0, cs)

/-- Embedding of `_observation_period_days`: strip and uppercase, match the
anchored pattern P(\d+Y)?(\d+M)?(\d+D)? as a prefix, sum years·365 +
months·30 + days, and return None unless the sum is positive or the
pattern fails (no leading P). -/
def observation_period_days (s : String) : Option Nat :=
  match (stripChars s.data).map upperChar with
  | 'P' :: rest =>
    let (y, r1) := takeNumThen 'Y' rest
    let (mo, r2) := takeNumThen 'M' r1
    let (d, _) := takeNumThen 'D' r2
    let days := y * 365 + mo * 30 + d
    if days > 0 then some days else none
  | _ => none

/-- Python's `s.replace(",", "")`: remove every comma. -/
def removeCommas (s : String) : String := ⟨s.data.filter (fun c => c ≠ ',')⟩

/-- Embedding of `_numeric`: int/float pass through (bool excluded from that
branch), anything else goes through float(str(v).replace(",","").strip());
None on failure. str(True) and str(None) are not numeric literals. -/
def numericOf (v : PyVal) : Option ℚ :=
  match v with
  | .num q => some q
  | .vnone => none
  | .str s => pyFloatStr (pyStrip (removeCommas s))
  | .bool b => pyFloatStr (if b then "True" else "False")

/-- Normalized problem point as built by extract_fluctuation_samples:
a dict with a date, a value and optional scalingFactor/unit entries. -/
structure NPoint where
  date : Option String
  value : PyVal
  scalingFactor : Option String
  unit : Option String
deriving DecidableEq

/-- Return value of `_compute_technical_signals`, field for dict key. -/
structure TechSignals where
  previous_value : Option ℚ
  current_value : Option ℚ
  percent_change : Option ℚ
  previous_near_zero : Bool
  first_valid_after_placeholder : Bool
  missing_intermediate_periods : Option Bool
  scaling_changed : Option Bool
  unit_changed : Option Bool
deriving DecidableEq

/-- Near-zero threshold 1e-9 used by the percent-change guard. -/
def pcEps : ℚ := 1 / 1000000000

/-- Day gaps of consecutive point pairs whose dates both parse
(the `gaps` list built from `all_sorted_points`). -/
def consecGaps : List NPoint → List Int
  | a :: b :: rest =>
    (match parse_date (a.date.getD ""), parse_date (b.date.getD "") with
     | some da, some db => [dateGapDays da db]
     | _, _ => []) ++ consecGaps (b :: rest)
  | _ => []

/-- Inferred-typical-gap branch of missing_intermediate_periods: with at
least 3 points and a nonempty gaps list, flag gap > max(1, int(mean));
int() truncates toward zero as Int.tdiv does. -/
def inferredMissing (gap : Int) (all_sorted_points : List NPoint) : Option Bool :=
  if all_sorted_points.length ≥ 3 then
    let gaps := consecGaps all_sorted_points
    if gaps.isEmpty then none
    else some (gap > max 1 (Int.tdiv gaps.sum (gaps.length : Int)))
  else none

/-- Embedding of `_compute_technical_signals`. -/
def computeTechnicalSignals (previous_point current_point : NPoint)
    (observation_period : String) (all_sorted_points : List NPoint) : TechSignals :=
  let prev_num := numericOf previous_point.value
  let curr_num := numericOf current_point.value
  let prev_date := parse_date (previous_point.date.getD "")
  let curr_date := parse_date (current_point.date.getD "")
  let percent_change : Option ℚ :=
    match prev_num, curr_num with
    | some p, some c => if pyAbs p ≥ pcEps then some (((c - p) / pyAbs p) * 100) else none
    | _, _ => none
  let previous_near_zero : Bool :=
    match prev_num with
    | some p => decide (pyAbs p < 1)
    | none => false
  let first_valid_after_placeholder : Bool :=
    match prev_num, curr_num with
    | some p, some c => decide (p ≤ 0) && decide (0 < c)
    | _, _ => false
  let scaling_changed : Option Bool :=
    match previous_point.scalingFactor, current_point.scalingFactor with
    | some a, some b => some (a ≠ b)
    | _, _ => none
  let unit_changed : Option Bool :=
    match previous_point.unit, current_point.unit with
    | some a, some b => some (a ≠ b)
    | _, _ => none
  let missing_intermediate_periods : Option Bool :=
    match prev_date, curr_date with
    | some da, some db =>
      let gap_days := dateGapDays da db
      match observation_period_days observation_period with
      | some pd =>
        if 0 < pd then some (gap_days > (pd : Int))
        else inferredMissing gap_days all_sorted_points
      | none => inferredMissing gap_days all_sorted_points
    | _, _ => none
  { previous_value := prev_num
    current_value := curr_num
    percent_change := percent_change
    previous_near_zero := previous_near_zero
    first_valid_after_placeholder := first_valid_after_placeholder
    missing_intermediate_periods := missing_intermediate_periods
    scaling_changed := scaling_changed
    unit_changed := unit_changed }

/-- Entry of the validation_output array as consulted by apply_warn_only:
non-dict entries are skipped; dict entries expose a status value, a
validation_name value (none models an absent key or a JSON null, the
String is the str() image otherwise) and an untouched remainder. -/
inductive ROut where
  | nondict (tag : Nat)
  | rdict (status : Option String) (validation_name : Option String) (rest : Nat)
deriving DecidableEq

/-- Normalization applied to rule names: str(x).strip().lower(). -/
def normRuleName (s : String) : String := pyLower (pyStrip s)

/-- Effect of one loop iteration of apply_warn_only on one entry:
the possibly-rewritten entry and how much it adds to `converted`. -/
def convertEntry (warn_only : List String) (r : ROut) : ROut × Nat :=
  match r with
  | .nondict t => (.nondict t, 0)
  | .rdict st nm rest =>
    if st = some "FAILED" then
      match nm with
      | some name =>
        if warn_only.contains (normRuleName name) then
          (.rdict (some "WARNING") (some name) rest, 1)
        else (.rdict st nm rest, 0)
      | none => (.rdict st nm rest, 0)
    else (.rdict st nm rest, 0)

/-- Conversion loop of apply_warn_only over the whole results array. -/
def warnLoop (warn_only : List String) : List ROut → List ROut × Nat
  | [] => ([], 0)
  | r :: rest =>
    let (r2, c) := convertEntry warn_only r
    let (rs, n) := warnLoop warn_only rest
    (r2 :: rs, c + n)

/-- Embedding of the core of `apply_warn_only` after both files were read:
with an empty warn-only set the function returns before the loop;
otherwise every entry passes through the conversion loop.  The returned
Nat is `converted`. -/
def apply_warn_only (warn_only : List String) (results : List ROut) :
    List ROut × Nat :=
  if warn_only.isEmpty then (results, 0) else warnLoop warn_only results

/-- JSON value as read back by has_blockers. -/
inductive JVal where
  | null : JVal
  | jbool (b : Bool) : JVal
  | jnum (q : ℚ) : JVal
  | jstr (s : String) : JVal
  | jarr (elems : List JVal) : JVal
  | jobj (fields : List (String × JVal)) : JVal

/-- Dict lookup on a JSON object (first binding of the key). -/
def jget (fields : List (String × JVal)) (key : String) : Option JVal :=
  (fields.find? (fun kv => kv.1 == key)).map (fun kv => kv.2)

/-- Test `isinstance(r, dict) and r.get("status") == "FAILED"` on one
array entry. -/
def entryFailed : JVal → Bool
  | .jobj f =>
    match jget f "status" with
    | some (.jstr s) => s == "FAILED"
    | _ => false
  | _ => false

/-- Embedding of `has_blockers`: none models an unreadable or non-JSON
artifact (FileNotFoundError/JSONDecodeError); a non-list payload is also
a blocker; a list blocks iff some dict entry has status FAILED. -/
def has_blockers (content : Option JVal) : Bool :=
  match content with
  | none => true
  | some (.jarr results) => results.any entryFailed
  | some _ => true

/-- Embedding of `compute_structural_lint_count`.  The report argument is
the LEVEL_ERROR counters dict reached through the defaulted lookups
report.get("levelSummary", {}).get("LEVEL_ERROR", {}).get("counters", {});
a falsy report or a missing level collapses to the empty list.  Counter
values are already ints in the report schema, so int(value) is identity. -/
def compute_structural_lint_count (counters : List (String × Int)) : Int :=
  if counters.isEmpty then 0
  else ((counters.filter
          (fun kv => !strStartsWith kv.1 "Existence_FailedDcCall_")).map
            (fun kv => kv.2)).sum

/-- Result record of the structural-lint rule; validation_params is the
optional threshold entry of params. -/
structure SLResult where
  validation_name : String
  status : String
  message : String
  lint_error_count : Int
  threshold_param : Option Int
deriving DecidableEq, Repr

/-- Embedding of structural_lint_error_count.run: params.get("threshold", 0),
FAILED iff the count strictly exceeds the threshold, else PASSED. -/
def runStructuralLint (counters : List (String × Int)) (threshold : Option Int)
    (rule_id : String) : SLResult :=
  let t := threshold.getD 0
  let c := compute_structural_lint_count counters
  if c > t then
    { validation_name := rule_id
      status := "FAILED"
      message := "Found " ++ toString c
        ++ " structural schema/MCF lint errors (non-resolution), which exceeds the threshold of "
        ++ toString t ++ "."
      lint_error_count := c
      threshold_param := threshold }
  else
    { validation_name := rule_id
      status := "PASSED"
      message := ""
      lint_error_count := c
      threshold_param := threshold }

/-- Exit-code computation at the end of run_validation.main, after config
loading and rule splitting succeeded: statuses of the merged results
(external results first, then custom), the number of external (bucket-1)
rules submitted, and the length test `len(dc_results) < len(dc_rules)`. -/
def runValidationExit (dc_rules_count : Nat)
    (dc_statuses custom_statuses : List String) : Nat :=
  let combined := dc_statuses ++ custom_statuses
  let all_passed := combined.all (fun s => s == "PASSED")
  let dc_run_ok := dc_rules_count == 0 || decide (dc_rules_count ≤ dc_statuses.length)
  if !dc_run_ok then 1
  else if all_passed then 0 else 1

/-- CSV row as produced by csv.DictReader: an association of column names
to cell values, where a cell may be None (short row) or a string. -/
def Row : Type := List (String × Option String)

/-- Dict lookup on a row: outer none models an absent key. -/
def rowGet (row : Row) (key : String) : Option (Option String) :=
  (row.find? (fun kv => kv.1 == key)).map (fun kv => kv.2)

/-- Statistics summary CSV: DictReader fieldnames (or [] when None) and rows. -/
structure Csv where
  header : List String
  rows : List Row

/-- Exemption keyword set NEGATIVE_ALLOWED_KEYWORDS of min_value_check. -/
def NEGATIVE_ALLOWED_KEYWORDS : List String :=
  ["Incremental", "GrowthRate", "Net", "Change"]

/-- Raw value of row.get("StatVar", "Unknown"): the default only applies
when the key is absent; a None cell stays None. -/
def statVarOf (row : Row) : Option String :=
  match rowGet row "StatVar" with
  | none => some "Unknown"
  | some v => v

/-- str(stat_var): str(None) is the string "None". -/
def statVarStr (row : Row) : String :=
  match statVarOf row with
  | some s => s
  | none => "None"

/-- Case-sensitive substring exemption test of the min-value loop. -/
def isExemptRow (row : Row) : Bool :=
  NEGATIVE_ALLOWED_KEYWORDS.any (fun kw => strHasSub (statVarStr row) kw)

/-- Raw value of row.get("MinValue", ""). -/
def minCellOf (row : Row) : Option String :=
  match rowGet row "MinValue" with
  | none => some ""
  | some v => v

/-- Embedding of `_parse_min_value` on a cell (None, or a string that may
be blank or a decimal literal). -/
def parse_min_value (v : Option String) : Option ℚ :=
  match v with
  | none => none
  | some s => if (stripChars s.data).isEmpty then none else pyFloatStr (pyStrip s)

/-- Presence test `"minimum" in params`. -/
def hasKey (params : List (String × PyVal)) (key : String) : Bool :=
  params.any (fun kv => kv.1 == key)

/-- Dict lookup params[key] / params.get(key). -/
def paramGet (params : List (String × PyVal)) (key : String) : Option PyVal :=
  (params.find? (fun kv => kv.1 == key)).map (fun kv => kv.2)

/-- Python float() on a params value: numbers pass, booleans are ints
(float(True) = 1.0), strings parse as decimal literals, None raises. -/
def pyFloatOf (v : PyVal) : Option ℚ :=
  match v with
  | .num q => some q
  | .str s => pyFloatStr s
  | .bool b => some (if b then 1 else 0)
  | .vnone => none

/-- Threshold actually used by the min-value loop:
min_val = float(params["minimum"]) with 0 substituted on
TypeError/ValueError.  (The key is guaranteed present when this value is
consulted.) -/
def mvThreshold (params : List (String × PyVal)) : ℚ :=
  match paramGet params "minimum" with
  | some v => (pyFloatOf v).getD 0
  | none => 0

/-- Entry of details.failed_rows: the raw stat_var value, the parsed
MinValue and the threshold. -/
structure FailedRow where
  stat_var : Option String
  actual_min_value : ℚ
  minimum : ℚ
deriving DecidableEq

/-- Shape of the details dict in the three result shapes min_value_check
returns: empty ({}), the three counters, or counters with failed_rows. -/
inductive MVDetails where
  | empty : MVDetails
  | counts (rows_processed rows_succeeded rows_failed : Nat) : MVDetails
  | withFailed (failed_rows : List FailedRow)
      (rows_processed rows_succeeded rows_failed : Nat) : MVDetails
deriving DecidableEq

/-- rows_processed recorded in a details dict (0 when absent). -/
def MVDetails.rowsProcessed : MVDetails → Nat
  | .empty => 0
  | .counts p _ _ => p
  | .withFailed _ p _ _ => p

/-- failed_rows recorded in a details dict ([] when absent). -/
def MVDetails.failedRowsOf : MVDetails → List FailedRow
  | .withFailed l _ _ _ => l
  | _ => []

/-- Result record of the min-value rule. -/
structure MVResult where
  validation_name : String
  status : String
  message : String
  details : MVDetails
  validation_params : List (String × PyVal)
deriving DecidableEq

/-- Row loop of min_value_check.run: skip exempt rows before counting,
then count the row, skip unparseable MinValue cells, and record a
failure when the parsed value is below the threshold.  Returns
(rows_processed, rows_failed, failed_rows_details) in row order. -/
def mvScan (min_val : ℚ) : List Row → Nat × Nat × List FailedRow
  | [] => (0, 0, [])
  | row :: rest =>
    if isExemptRow row then mvScan min_val rest
    else
      let (p, f, frs) := mvScan min_val rest
      match parse_min_value (minCellOf row) with
      | none => (p + 1, f, frs)
      | some mv =>
        if mv < min_val then
          (p + 1, f + 1, ⟨statVarOf row, mv, min_val⟩ :: frs)
        else (p + 1, f, frs)

/-- Embedding of min_value_check.run.  stats_summary none models a falsy
path or a path that is not an existing file; some csv models a readable
file with DictReader fieldnames csv.header. -/
def runMinValue (stats_summary : Option Csv) (params : List (String × PyVal))
    (rule_id : String) : MVResult :=
  if !hasKey params "minimum" then
    { validation_name := rule_id
      status := "CONFIG_ERROR"
      message := "Configuration error: \x27minimum\x27 key not specified."
      details := .empty
      validation_params := params }
  else
    let min_val := mvThreshold params
    match stats_summary with
    | none =>
      { validation_name := rule_id
        status := "PASSED"
        message := ""
        details := .counts 0 0 0
        validation_params := params }
    | some csv =>
      if !csv.header.contains "MinValue" then
        { validation_name := rule_id
          status := "DATA_ERROR"
          message := "Input data is missing required column: \x27MinValue\x27."
          details := .empty
          validation_params := params }
      else
        let (rows_processed, rows_failed, failed) := mvScan min_val csv.rows
        let rows_succeeded := rows_processed - rows_failed
        if rows_failed > 0 then
          { validation_name := rule_id
            status := "WARNING"
            message := toString rows_failed ++ " out of " ++ toString rows_processed
              ++ " StatVars failed the minimum value check."
            details := .withFailed failed rows_processed rows_succeeded rows_failed
            validation_params := params }
        else
          { validation_name := rule_id
            status := "PASSED"
            message := ""
            details := .counts rows_processed rows_succeeded rows_failed
            validation_params := params }

/-- Status value carried by a results entry (none for a non-dict entry or
an absent status key). -/
def ROut.statusOf : ROut → Option String
  | .rdict st _ _ => st
  | .nondict _ => none

/-- Predicate of the warn-only rewrite, read off the spec: the entry is a
dict whose status is FAILED and whose name, trimmed and lowercased, is in
the warn-only set. -/
def shouldConvert (warn_only : List String) (r : ROut) : Bool :=
  match r with
  | .rdict (some s) (some n) _ => s == "FAILED" && warn_only.contains (normRuleName n)
  | _ => false

/-- Rewrite of a converted entry: only the status changes, to WARNING. -/
def setWarning : ROut → ROut
  | .rdict _ nm rest => .rdict (some "WARNING") nm rest
  | .nondict t => .nondict t

/-- Fail-list of the min-value loop, read off the spec: the non-exempt rows
whose parsed MinValue is strictly below the threshold, in row order. -/
def mvFailList (m : ℚ) (rows : List Row) : List FailedRow :=
  rows.filterMap (fun row =>
    if isExemptRow row then none
    else
      match parse_min_value (minCellOf row) with
      | some mv => if mv < m then some ⟨statVarOf row, mv, m⟩ else none
      | none => none)

/-- Witness rows for the min-value exemption scenario: an exempt
GrowthRate row at −50 and a counted Count_Person row at −1. -/
def mvRow1 : Row := [("StatVar", some "GrowthRate_Income"), ("MinValue", some "-50")]

/-- Witness row with a non-exempt StatVar and MinValue −1. -/
def mvRow2 : Row := [("StatVar", some "Count_Person"), ("MinValue", some "-1")]

/-- Witness statistics summary with both rows. -/
def mvCsvEx : Csv := ⟨["StatVar", "MinValue"], [mvRow1, mvRow2]⟩

/-- C1 (counterexample): a run with no external rules whose merged output is
one WARNING result and one PASSED result — no FAILED anywhere — exits 1,
not 0 as the claim states. -/
theorem run_validation_exit_one_on_warning :
    runValidationExit 0 [] ["WARNING", "PASSED"] = 1 ∧
    "FAILED" ∉ (([] : List String) ++ ["WARNING", "PASSED"]) := by decide

/-- C1 (amended): the orchestrator's return code is 0 exactly when the
external tool produced at least as many results as bucket-1 rules
submitted (when any were submitted) and every merged result has status
PASSED; any non-PASSED status — WARNING, CONFIG_ERROR, DATA_ERROR as much
as FAILED — forces a non-zero return. -/
theorem run_validation_exit_zero_iff_all_passed
    (n : Nat) (dc cust : List String) :
    runValidationExit n dc cust = 0 ↔
      ((n = 0 ∨ n ≤ dc.length) ∧ ∀ s ∈ dc ++ cust, s = "PASSED") := by
  unfold runValidationExit
  by_cases hok : (n == 0 || decide (n ≤ dc.length)) = true
  · by_cases hall : ((dc ++ cust).all (fun s => s == "PASSED")) = true
    · simp only [hok, Bool.not_true, if_false, hall, if_true]
      constructor
      · intro _
        refine ⟨?_, ?_⟩
        · simpa using hok
        · intro s hs
          have := (List.all_eq_true.mp hall) s hs
          simpa using this
      · intro _; rfl
    · simp only [hok, Bool.not_true, if_false, hall, if_false]
      constructor
      · intro h; cases h
      · rintro ⟨-, h⟩
        exfalso
        apply hall
        exact List.all_eq_true.mpr (fun s hs => by simpa using h s hs)
  · simp only [Bool.not_eq_true] at hok
    simp only [hok, Bool.not_false, if_true]
    constructor
    · intro h; cases h
    · rintro ⟨h, -⟩
      exfalso
      have : (n == 0 || decide (n ≤ dc.length)) = true := by simpa using h
      rw [hok] at this
      cases this

/-- C5: the structural-lint rule's lint_error_count is the sum of the
LEVEL_ERROR counters whose keys do not start with Existence_FailedDcCall_;
the status is FAILED exactly when that sum strictly exceeds the threshold
(params.get("threshold", 0)), it is PASSED at the boundary, and the rule
never produces WARNING. -/
theorem structural_lint_threshold_spec
    (counters : List (String × Int)) (thr : Option Int) (rid : String) :
    ((runStructuralLint counters thr rid).lint_error_count
      = ((counters.filter
            (fun kv => !strStartsWith kv.1 "Existence_FailedDcCall_")).map
              (fun kv => kv.2)).sum) ∧
    ((runStructuralLint counters thr rid).status = "FAILED" ↔
      ((counters.filter
          (fun kv => !strStartsWith kv.1 "Existence_FailedDcCall_")).map
            (fun kv => kv.2)).sum > thr.getD 0) ∧
    (((counters.filter
          (fun kv => !strStartsWith kv.1 "Existence_FailedDcCall_")).map
            (fun kv => kv.2)).sum = thr.getD 0 →
      (runStructuralLint counters thr rid).status = "PASSED") ∧
    ((runStructuralLint counters thr rid).status ≠ "WARNING") := by
  have hc : compute_structural_lint_count counters
      = ((counters.filter
            (fun kv => !strStartsWith kv.1 "Existence_FailedDcCall_")).map
              (fun kv => kv.2)).sum := by
    unfold compute_structural_lint_count
    rcases counters with _ | ⟨kv, rest⟩
    · simp
    · simp
  unfold runStructuralLint
  rw [hc]
  by_cases h : ((counters.filter
      (fun kv => !strStartsWith kv.1 "Existence_FailedDcCall_")).map
        (fun kv => kv.2)).sum > thr.getD 0
  · rw [if_pos h]
    refine ⟨rfl, ⟨fun _ => h, fun _ => rfl⟩, ?_, by simp⟩
    intro he
    exfalso
    omega
  · rw [if_neg h]
    refine ⟨rfl, ⟨?_, ?_⟩, fun _ => rfl, by simp⟩
    · intro hs
      simp at hs
    · intro hgt
      exact absurd hgt h

/-- C5 (witness): the boundary case — one structural counter of 3 at
threshold 3 — evaluates to PASSED through the theorem. -/
theorem structural_lint_threshold_spec_witness :
    (runStructuralLint [("StructuralFoo", 3)] (some 3)
      "check_structural_lint_error_count").status = "PASSED" :=
  (structural_lint_threshold_spec [("StructuralFoo", 3)] (some 3)
    "check_structural_lint_error_count").2.2.1 (by decide)

/-- Characterization of one entry's blocker test: the entry blocks exactly
when it is a dict whose status value is the string FAILED. -/
theorem entryFailed_iff (r : JVal) :
    entryFailed r = true ↔
      ∃ fields, r = JVal.jobj fields ∧
        jget fields "status" = some (JVal.jstr "FAILED") := by
  cases r with
  | jobj f =>
    constructor
    · intro h
      refine ⟨f, rfl, ?_⟩
      simp only [entryFailed] at h
      rcases hg : jget f "status" with _ | v
      · rw [hg] at h; cases h
      · rcases v with _ | b | q | s | el | fl <;> rw [hg] at h
        · cases h
        · cases h
        · cases h
        · have hs : s = "FAILED" := by simpa using h
          rw [hs]
        · cases h
        · cases h
    · rintro ⟨fields, hf, hs⟩
      have hff : f = fields := by injection hf
      subst hff
      simp only [entryFailed]
      rw [hs]
      simp
  | null =>
    constructor
    · intro h; simp [entryFailed] at h
    · rintro ⟨fields, hf, -⟩; cases hf
  | jbool b =>
    constructor
    · intro h; simp [entryFailed] at h
    · rintro ⟨fields, hf, -⟩; cases hf
  | jnum q =>
    constructor
    · intro h; simp [entryFailed] at h
    · rintro ⟨fields, hf, -⟩; cases hf
  | jstr s =>
    constructor
    · intro h; simp [entryFailed] at h
    · rintro ⟨fields, hf, -⟩; cases hf
  | jarr el =>
    constructor
    · intro h; simp [entryFailed] at h
    · rintro ⟨fields, hf, -⟩; cases hf

/-- C7: has_blockers is fail-closed — an unreadable or non-JSON artifact
and a non-list payload both report blockers; on a list it reports
blockers exactly when some dict entry has status FAILED. -/
theorem has_blockers_fail_closed (v : JVal) (l : List JVal) :
    (has_blockers none = true) ∧
    ((∀ el, v ≠ JVal.jarr el) → has_blockers (some v) = true) ∧
    (has_blockers (some (JVal.jarr l)) = true ↔
      ∃ r ∈ l, ∃ fields, r = JVal.jobj fields ∧
        jget fields "status" = some (JVal.jstr "FAILED")) := by
  refine ⟨rfl, ?_, ?_⟩
  · intro h
    cases v with
    | jarr el => exact absurd rfl (h el)
    | null => rfl
    | jbool b => rfl
    | jnum q => rfl
    | jstr s => rfl
    | jobj f => rfl
  · unfold has_blockers
    rw [List.any_eq_true]
    constructor
    · rintro ⟨r, hr, hf⟩
      exact ⟨r, hr, (entryFailed_iff r).mp hf⟩
    · rintro ⟨r, hr, hf⟩
      exact ⟨r, hr, (entryFailed_iff r).mpr hf⟩

/-- C7 (witness): a non-list JSON payload blocks, and a one-element list
whose entry is a dict with status FAILED blocks, via the theorem. -/
theorem has_blockers_fail_closed_witness :
    has_blockers (some (JVal.jstr "oops")) = true ∧
    has_blockers
      (some (JVal.jarr [JVal.jobj [("status", JVal.jstr "FAILED")]])) = true :=
  ⟨(has_blockers_fail_closed (JVal.jstr "oops") []).2.1
      (fun el h => JVal.noConfusion h),
   (has_blockers_fail_closed (JVal.jstr "oops")
      [JVal.jobj [("status", JVal.jstr "FAILED")]]).2.2.mpr
      ⟨JVal.jobj [("status", JVal.jstr "FAILED")], by simp,
        [("status", JVal.jstr "FAILED")], rfl, rfl⟩⟩

/-- C1 (amended, witness): a run with no external rules and all-PASSED
merged output exits 0, through the amended theorem. -/
theorem run_validation_exit_zero_iff_all_passed_witness :
    runValidationExit 0 [] ["PASSED", "PASSED"] = 0 :=
  (run_validation_exit_zero_iff_all_passed 0 [] ["PASSED", "PASSED"]).mpr
    ⟨Or.inl rfl, by decide⟩

/-- First component of one conversion step, phrased through the spec
predicate. -/
theorem convertEntry_fst (w : List String) (r : ROut) :
    (convertEntry w r).1 = (if shouldConvert w r then setWarning r else r) := by
  cases r with
  | nondict t => simp [convertEntry, shouldConvert]
  | rdict st nm rest =>
    cases st with
    | none => simp [convertEntry, shouldConvert]
    | some s =>
      by_cases hs : s = "FAILED"
      · subst hs
        cases nm with
        | none => simp [convertEntry, shouldConvert]
        | some name =>
          by_cases hc : normRuleName name ∈ w
          · simp [convertEntry, shouldConvert, hc, setWarning]
          · simp [convertEntry, shouldConvert, hc, setWarning]
      · cases nm with
        | none => simp [convertEntry, shouldConvert, hs]
        | some name => simp [convertEntry, shouldConvert, hs]

/-- Second component (the converted-count contribution) of one conversion
step. -/
theorem convertEntry_snd (w : List String) (r : ROut) :
    (convertEntry w r).2 = (if shouldConvert w r then 1 else 0) := by
  cases r with
  | nondict t => simp [convertEntry, shouldConvert]
  | rdict st nm rest =>
    cases st with
    | none => simp [convertEntry, shouldConvert]
    | some s =>
      by_cases hs : s = "FAILED"
      · subst hs
        cases nm with
        | none => simp [convertEntry, shouldConvert]
        | some name =>
          by_cases hc : normRuleName name ∈ w
          · simp [convertEntry, shouldConvert, hc]
          · simp [convertEntry, shouldConvert, hc]
      · cases nm with
        | none => simp [convertEntry, shouldConvert, hs]
        | some name => simp [convertEntry, shouldConvert, hs]

/-- Conversion loop as a map plus a filter count. -/
theorem warnLoop_eq (w : List String) (rs : List ROut) :
    warnLoop w rs
      = (rs.map (fun r => if shouldConvert w r then setWarning r else r),
         (rs.filter (shouldConvert w)).length) := by
  induction rs with
  | nil => simp [warnLoop]
  | cons r rest ih =>
    simp only [warnLoop, ih, convertEntry_fst, convertEntry_snd, List.map_cons,
      List.filter_cons]
    by_cases h : shouldConvert w r = true
    · simp [h, Nat.add_comm]
    · simp [h]

/-- With an empty warn-only set nothing converts. -/
theorem shouldConvert_nil (r : ROut) : shouldConvert [] r = false := by
  cases r with
  | nondict t => rfl
  | rdict st nm rest =>
    cases st with
    | none => rfl
    | some s =>
      cases nm with
      | none => rfl
      | some n => simp [shouldConvert]

/-- A converted entry can never be converted again. -/
theorem shouldConvert_after (w : List String) (r : ROut) :
    shouldConvert w (if shouldConvert w r then setWarning r else r) = false := by
  by_cases h : shouldConvert w r = true
  · rw [if_pos h]
    cases r with
    | nondict t => simp [setWarning, shouldConvert]
    | rdict st nm rest =>
      cases nm with
      | none => simp [setWarning, shouldConvert]
      | some n => simp [setWarning, shouldConvert]
  · rw [if_neg h]
    exact Bool.not_eq_true _ ▸ (by simpa using h)

/-- C2: apply_warn_only rewrites status to WARNING exactly for the dict
entries whose status is FAILED and whose trimmed, lowercased
validation_name is in the warn-only set, returns that count, never
touches an entry whose status is already WARNING, and is idempotent:
a second application converts 0 entries and leaves the array unchanged. -/
theorem apply_warn_only_conversion_spec (w : List String) (results : List ROut) :
    ((apply_warn_only w results).1
        = results.map (fun r => if shouldConvert w r then setWarning r else r)) ∧
    ((apply_warn_only w results).2 = (results.filter (shouldConvert w)).length) ∧
    (∀ r, r.statusOf = some "WARNING" → (convertEntry w r).1 = r) ∧
    (apply_warn_only w (apply_warn_only w results).1
        = ((apply_warn_only w results).1, 0)) := by
  have key : apply_warn_only w results
      = (results.map (fun r => if shouldConvert w r then setWarning r else r),
         (results.filter (shouldConvert w)).length) := by
    unfold apply_warn_only
    by_cases he : w.isEmpty
    · have hw : w = [] := by
        cases w with
        | nil => rfl
        | cons a l => cases he
      subst hw
      have hf : results.filter (shouldConvert []) = [] :=
        List.filter_eq_nil_iff.mpr (fun r _ => by simp [shouldConvert_nil])
      simp [shouldConvert_nil, hf]
    · rw [if_neg he, warnLoop_eq]
  refine ⟨by rw [key], by rw [key], ?_, ?_⟩
  · intro r hW
    cases r with
    | nondict t => rfl
    | rdict st nm rest =>
      have hst : st = some "WARNING" := hW
      subst hst
      cases nm with
      | none => rfl
      | some n => simp [convertEntry]
  · have key2 : apply_warn_only w (apply_warn_only w results).1
        = ((apply_warn_only w results).1.map
            (fun r => if shouldConvert w r then setWarning r else r),
           ((apply_warn_only w results).1.filter (shouldConvert w)).length) := by
      unfold apply_warn_only
      by_cases he : w.isEmpty
      · have hw : w = [] := by
          cases w with
          | nil => rfl
          | cons a l => cases he
        subst hw
        have hf : ∀ l : List ROut, l.filter (shouldConvert []) = [] :=
          fun l => List.filter_eq_nil_iff.mpr (fun r _ => by simp [shouldConvert_nil])
        simp [shouldConvert_nil, hf]
      · rw [if_neg he, if_neg he, warnLoop_eq]
    rw [key2, key]
    dsimp only
    simp only [Prod.mk.injEq]
    refine ⟨?_, ?_⟩
    · rw [List.map_map]
      exact List.map_congr_left (fun r _ => by
        simp only [Function.comp_apply]
        rw [if_neg (by simp [shouldConvert_after w r])])
    · rw [List.length_eq_zero]
      refine List.filter_eq_nil_iff.mpr ?_
      intro r hr
      rcases List.mem_map.mp hr with ⟨r0, -, hr0⟩
      rw [← hr0]
      simp [shouldConvert_after]

/-- C2 (witness): one FAILED result named check_min_value with warn-only set
containing check_min_value converts to WARNING with count 1, and
re-applying the override converts 0 and changes nothing, all through
the main theorem. -/
theorem apply_warn_only_conversion_spec_witness :
    apply_warn_only ["check_min_value"]
        [ROut.rdict (some "FAILED") (some "check_min_value") 0]
      = ([ROut.rdict (some "WARNING") (some "check_min_value") 0], 1) ∧
    apply_warn_only ["check_min_value"]
        [ROut.rdict (some "WARNING") (some "check_min_value") 0]
      = ([ROut.rdict (some "WARNING") (some "check_min_value") 0], 0) := by
  have h := apply_warn_only_conversion_spec ["check_min_value"]
    [ROut.rdict (some "FAILED") (some "check_min_value") 0]
  have hpair : apply_warn_only ["check_min_value"]
      [ROut.rdict (some "FAILED") (some "check_min_value") 0]
      = ((apply_warn_only ["check_min_value"]
          [ROut.rdict (some "FAILED") (some "check_min_value") 0]).1,
         (apply_warn_only ["check_min_value"]
          [ROut.rdict (some "FAILED") (some "check_min_value") 0]).2) := rfl
  have hval : apply_warn_only ["check_min_value"]
      [ROut.rdict (some "FAILED") (some "check_min_value") 0]
      = ([ROut.rdict (some "WARNING") (some "check_min_value") 0], 1) := by
    rw [hpair, h.1, h.2.1]
    decide
  refine ⟨hval, ?_⟩
  have h3 := h.2.2.2
  rw [hval] at h3
  exact h3

/-- C4: for two points whose values both coerce to numbers, percent_change
is ((current − previous)/|previous|)·100 when |previous| ≥ 1e-9 and null
when |previous| < 1e-9 — never a substituted number; previous=100,
current=150 gives 50 and previous=100, current=25 gives −75, while
previous=0, current=50 gives null. -/
theorem percent_change_spec (prev curr : NPoint) (op : String)
    (pts : List NPoint) (p c : ℚ)
    (hp : numericOf prev.value = some p) (hc : numericOf curr.value = some c) :
    (pyAbs p ≥ pcEps →
      (computeTechnicalSignals prev curr op pts).percent_change
        = some (((c - p) / pyAbs p) * 100)) ∧
    (pyAbs p < pcEps →
      (computeTechnicalSignals prev curr op pts).percent_change = none) ∧
    ((computeTechnicalSignals ⟨none, .num 100, none, none⟩
        ⟨none, .num 150, none, none⟩ "" []).percent_change = some 50) ∧
    ((computeTechnicalSignals ⟨none, .num 100, none, none⟩
        ⟨none, .num 25, none, none⟩ "" []).percent_change = some (-75)) ∧
    ((computeTechnicalSignals ⟨none, .num 0, none, none⟩
        ⟨none, .num 50, none, none⟩ "" []).percent_change = none) := by
  refine ⟨?_, ?_, ?_, ?_, ?_⟩
  · intro hge
    simp only [computeTechnicalSignals, hp, hc]
    rw [if_pos hge]
  · intro hlt
    simp only [computeTechnicalSignals, hp, hc]
    rw [if_neg (not_le.mpr hlt)]
  · simp only [computeTechnicalSignals, numericOf]
    rw [if_pos (by norm_num [pyAbs, pcEps])]
    norm_num [pyAbs]
  · simp only [computeTechnicalSignals, numericOf]
    rw [if_pos (by norm_num [pyAbs, pcEps])]
    norm_num [pyAbs]
  · simp only [computeTechnicalSignals, numericOf]
    rw [if_neg (by norm_num [pyAbs, pcEps])]

/-- C4 (witness): the sign-and-magnitude case previous=100, current=150
evaluates to percent_change 50 through the theorem. -/
theorem percent_change_spec_witness :
    (computeTechnicalSignals ⟨none, .num 100, none, none⟩
      ⟨none, .num 150, none, none⟩ "" []).percent_change = some 50 := by
  have h := (percent_change_spec ⟨none, .num 100, none, none⟩
    ⟨none, .num 150, none, none⟩ "" [] 100 150 rfl rfl).1
    (by norm_num [pyAbs, pcEps])
  rw [h]
  norm_num [pyAbs]

/-- C9: previous_near_zero is |previous| < 1 whenever the previous value
coerces to a number and false otherwise, independently of the
percent-change guard: at previous=0.5, current=10 the point is near zero
and percent_change is simultaneously the finite number 1900. -/
theorem previous_near_zero_spec (prev curr : NPoint) (op : String)
    (pts : List NPoint) (p : ℚ)
    (hp : numericOf prev.value = some p) :
    ((computeTechnicalSignals prev curr op pts).previous_near_zero
        = decide (pyAbs p < 1)) ∧
    (∀ p2 c2 : NPoint, ∀ op2 : String, ∀ pts2 : List NPoint,
      numericOf p2.value = none →
      (computeTechnicalSignals p2 c2 op2 pts2).previous_near_zero = false) ∧
    ((computeTechnicalSignals ⟨none, .num (1/2), none, none⟩
        ⟨none, .num 10, none, none⟩ "" []).previous_near_zero = true) ∧
    ((computeTechnicalSignals ⟨none, .num (1/2), none, none⟩
        ⟨none, .num 10, none, none⟩ "" []).percent_change = some 1900) := by
  refine ⟨?_, ?_, ?_, ?_⟩
  · simp only [computeTechnicalSignals, hp]
  · intro p2 c2 op2 pts2 h2
    simp only [computeTechnicalSignals, h2]
  · simp only [computeTechnicalSignals, numericOf]
    rw [decide_eq_true_eq]
    norm_num [pyAbs]
  · simp only [computeTechnicalSignals, numericOf]
    rw [if_pos (by norm_num [pyAbs, pcEps])]
    norm_num [pyAbs]

/-- C9 (witness): previous=0.5 is near zero while percent_change is the
finite number 1900, obtained through the theorem at that input. -/
theorem previous_near_zero_spec_witness :
    (computeTechnicalSignals ⟨none, .num (1/2), none, none⟩
        ⟨none, .num 10, none, none⟩ "" []).previous_near_zero = true ∧
    (computeTechnicalSignals ⟨none, .num (1/2), none, none⟩
        ⟨none, .num 10, none, none⟩ "" []).percent_change = some 1900 := by
  have h := previous_near_zero_spec ⟨none, .num (1/2), none, none⟩
    ⟨none, .num 10, none, none⟩ "" [] (1/2) rfl
  exact ⟨h.2.2.1, h.2.2.2⟩

/-- Positivity of a parsed observation period: the source returns the day
count only when it is positive. -/
theorem observation_period_days_pos {s : String} {n : Nat}
    (h : observation_period_days s = some n) : 0 < n := by
  unfold observation_period_days at h
  split at h
  · dsimp only at h
    split at h
    · injection h with h2
      omega
    · cases h
  · cases h

/-- C3 (counterexample): points 2020-01-01 and 2021-01-01 with declared
period P1Y produce missing_intermediate_periods true, not false as the
claim states — the gap spans leap year 2020, so it is 366 days, which is
strictly greater than the period's 365-day approximation. -/
theorem missing_periods_leap_year_counterexample :
    (computeTechnicalSignals ⟨some "2020-01-01", .num 100, none, none⟩
      ⟨some "2021-01-01", .num 150, none,
        none⟩ "P1Y" []).missing_intermediate_periods = some true ∧
    dateGapDays ⟨2020, 1, 1⟩ ⟨2021, 1, 1⟩ = 366 := by decide

/-- C3 (amended): when both of the last two points parse and the
observation period parses, missing_intermediate_periods is exactly
(day gap > approximate period days); when the period does not parse, the
typical-gap inference runs only with ≥ 3 points and a nonempty gaps list,
comparing the gap against max(1, truncated mean of consecutive gaps);
with fewer than 2 parseable dates the signal is null.  Points 2020-01-01
and 2022-01-01 with P1Y give true; 2020-01-01 and 2021-01-01 with P1Y
also give true (366-day leap gap > 365); 2021-01-01 and 2022-01-01 give
false. -/
theorem missing_intermediate_periods_spec
    (prev curr : NPoint) (op : String) (pts : List NPoint)
    (da db : PyDate) (pd : Nat)
    (h1 : parse_date (prev.date.getD "") = some da)
    (h2 : parse_date (curr.date.getD "") = some db) :
    (observation_period_days op = some pd →
      (computeTechnicalSignals prev curr op pts).missing_intermediate_periods
        = some (decide (dateGapDays da db > (pd : Int)))) ∧
    (observation_period_days op = none → 3 ≤ pts.length → consecGaps pts ≠ [] →
      (computeTechnicalSignals prev curr op pts).missing_intermediate_periods
        = some (decide (dateGapDays da db >
            max 1 (Int.tdiv (consecGaps pts).sum ((consecGaps pts).length : Int))))) ∧
    (observation_period_days op = none → pts.length < 3 →
      (computeTechnicalSignals prev curr op pts).missing_intermediate_periods
        = none) ∧
    (∀ p2 c2 : NPoint, ∀ op2 : String, ∀ pts2 : List NPoint,
      parse_date (p2.date.getD "") = none →
      (computeTechnicalSignals p2 c2 op2 pts2).missing_intermediate_periods
        = none) ∧
    (∀ p2 c2 : NPoint, ∀ op2 : String, ∀ pts2 : List NPoint,
      parse_date (c2.date.getD "") = none →
      (computeTechnicalSignals p2 c2 op2 pts2).missing_intermediate_periods
        = none) ∧
    ((computeTechnicalSignals ⟨some "2020-01-01", .num 100, none, none⟩
      ⟨some "2022-01-01", .num 150, none,
        none⟩ "P1Y" []).missing_intermediate_periods = some true) ∧
    ((computeTechnicalSignals ⟨some "2020-01-01", .num 100, none, none⟩
      ⟨some "2021-01-01", .num 150, none,
        none⟩ "P1Y" []).missing_intermediate_periods = some true) ∧
    ((computeTechnicalSignals ⟨some "2021-01-01", .num 100, none, none⟩
      ⟨some "2022-01-01", .num 150, none,
        none⟩ "P1Y" []).missing_intermediate_periods = some false) := by
  refine ⟨?_, ?_, ?_, ?_, ?_, by decide, by decide, by decide⟩
  · intro hop
    have hpos := observation_period_days_pos hop
    simp only [computeTechnicalSignals, h1, h2, hop]
    rw [if_pos hpos]
  · intro hop hlen hne
    simp only [computeTechnicalSignals, h1, h2, hop, inferredMissing]
    rw [if_pos hlen, if_neg (by simpa [List.isEmpty_iff] using hne)]
  · intro hop hlt
    simp only [computeTechnicalSignals, h1, h2, hop, inferredMissing]
    rw [if_neg (by omega)]
  · intro p2 c2 op2 pts2 hnone
    simp only [computeTechnicalSignals, hnone]
  · intro p2 c2 op2 pts2 hnone
    simp only [computeTechnicalSignals, hnone]
    rcases hq : parse_date (p2.date.getD "") with _ | d <;> simp

/-- C3 (witness): points 2020-01-01 and 2022-01-01 under declared period
P1Y flag missing intermediate periods, obtained through the theorem. -/
theorem missing_intermediate_periods_spec_witness :
    (computeTechnicalSignals ⟨some "2020-01-01", .num 100, none, none⟩
      ⟨some "2022-01-01", .num 150, none,
        none⟩ "P1Y" []).missing_intermediate_periods = some true := by
  have h := (missing_intermediate_periods_spec
    ⟨some "2020-01-01", .num 100, none, none⟩
    ⟨some "2022-01-01", .num 150, none, none⟩ "P1Y" []
    ⟨2020, 1, 1⟩ ⟨2022, 1, 1⟩ 365 (by decide) (by decide)).1 (by decide)
  rw [h]
  decide

/-- Row loop of min_value_check.run as a filter count plus the fail-list. -/
theorem mvScan_eq (m : ℚ) (rows : List Row) :
    mvScan m rows = ((rows.filter (fun r => !isExemptRow r)).length,
                     (mvFailList m rows).length, mvFailList m rows) := by
  induction rows with
  | nil => simp [mvScan, mvFailList]
  | cons row rest ih =>
    by_cases he : isExemptRow row = true
    · simp [mvScan, he, mvFailList, List.filterMap_cons, List.filter_cons, ih]
    · rcases hp : parse_min_value (minCellOf row) with _ | mv
      · simp [mvScan, he, hp, mvFailList, List.filterMap_cons, List.filter_cons, ih]
      · by_cases hlt : mv < m
        · simp [mvScan, he, hp, hlt, mvFailList, List.filterMap_cons,
            List.filter_cons, ih]
        · simp [mvScan, he, hp, hlt, mvFailList, List.filterMap_cons,
            List.filter_cons, ih]

/-- Statuses the min-value rule can return never include FAILED. -/
theorem runMinValue_ne_failed (s : Option Csv) (params : List (String × PyVal))
    (rid : String) : (runMinValue s params rid).status ≠ "FAILED" := by
  unfold runMinValue
  by_cases hk : hasKey params "minimum" = true
  · rw [hk]
    cases s with
    | none => simp
    | some csv =>
      by_cases hc : csv.header.contains "MinValue" = true
      · have hc2 : "MinValue" ∈ csv.header := by simpa using hc
        by_cases h0 : 0 < (mvScan (mvThreshold params) csv.rows).2.1
        · simp [hc2, h0]
        · simp [hc2, h0]
      · simp only [Bool.not_eq_true] at hc
        have hc2 : ¬ ("MinValue" ∈ csv.header) := by simpa using hc
        simp [hc2]
  · simp only [Bool.not_eq_true] at hk
    simp [hk]

/-- C6: every row whose StatVar name contains an exemption keyword is
excluded from rows_processed; details.failed_rows is exactly the
non-exempt rows with a parseable MinValue below the threshold (so an
exempt row can never contribute to a failure); the status is WARNING
exactly when that list is nonempty; and the evaluator never returns
FAILED for any input. -/
theorem min_value_exemption_spec (csv : Csv) (params : List (String × PyVal))
    (rid : String)
    (hk : hasKey params "minimum" = true)
    (hcol : csv.header.contains "MinValue" = true) :
    ((runMinValue (some csv) params rid).details.rowsProcessed
        = (csv.rows.filter (fun r => !isExemptRow r)).length) ∧
    ((runMinValue (some csv) params rid).details.failedRowsOf
        = mvFailList (mvThreshold params) csv.rows) ∧
    ((runMinValue (some csv) params rid).status = "WARNING" ↔
        mvFailList (mvThreshold params) csv.rows ≠ []) ∧
    (∀ s2 : Option Csv, ∀ p2 : List (String × PyVal), ∀ r2 : String,
      (runMinValue s2 p2 r2).status ≠ "FAILED") := by
  have hc2 : "MinValue" ∈ csv.header := by simpa using hcol
  have hrun : runMinValue (some csv) params rid
      = (if 0 < (mvFailList (mvThreshold params) csv.rows).length then
          { validation_name := rid
            status := "WARNING"
            message := toString (mvFailList (mvThreshold params) csv.rows).length
              ++ " out of "
              ++ toString (csv.rows.filter (fun r => !isExemptRow r)).length
              ++ " StatVars failed the minimum value check."
            details := .withFailed (mvFailList (mvThreshold params) csv.rows)
              (csv.rows.filter (fun r => !isExemptRow r)).length
              ((csv.rows.filter (fun r => !isExemptRow r)).length
                - (mvFailList (mvThreshold params) csv.rows).length)
              (mvFailList (mvThreshold params) csv.rows).length
            validation_params := params }
        else
          { validation_name := rid
            status := "PASSED"
            message := ""
            details := .counts (csv.rows.filter (fun r => !isExemptRow r)).length
              ((csv.rows.filter (fun r => !isExemptRow r)).length
                - (mvFailList (mvThreshold params) csv.rows).length)
              (mvFailList (mvThreshold params) csv.rows).length
            validation_params := params }) := by
    unfold runMinValue
    rw [hk]
    simp only [Bool.not_true]
    rw [if_neg (by simp)]
    rw [mvScan_eq]
    simp [hc2]
  by_cases hfl : mvFailList (mvThreshold params) csv.rows = []
  · have hlen : (mvFailList (mvThreshold params) csv.rows).length = 0 := by
      rw [hfl]; rfl
    rw [hrun, if_neg (by omega)]
    refine ⟨rfl, ?_, ?_, runMinValue_ne_failed⟩
    · rw [hfl]; rfl
    · constructor
      · intro h; simp at h
      · intro h; exact absurd hfl h
  · have hlen : 0 < (mvFailList (mvThreshold params) csv.rows).length :=
      List.length_pos.mpr hfl
    rw [hrun, if_pos hlen]
    exact ⟨rfl, rfl, ⟨fun _ => hfl, fun _ => rfl⟩, runMinValue_ne_failed⟩

/-- C6 (witness): a GrowthRate_Income row at −50 is exempt and excluded
while a Count_Person row at −1 is counted, recorded in failed_rows and
turns the result WARNING, through the theorem at minimum 0. -/
theorem min_value_exemption_spec_witness :
    ((runMinValue (some mvCsvEx)
        [("minimum", PyVal.num 0)] "check_min_value").details.rowsProcessed = 1) ∧
    ((runMinValue (some mvCsvEx)
        [("minimum", PyVal.num 0)] "check_min_value").details.failedRowsOf
      = [⟨some "Count_Person", -1, 0⟩]) ∧
    ((runMinValue (some mvCsvEx)
        [("minimum", PyVal.num 0)] "check_min_value").status = "WARNING") := by
  have h := min_value_exemption_spec mvCsvEx
    [("minimum", PyVal.num 0)] "check_min_value" (by decide) (by decide)
  have hth : mvThreshold [("minimum", PyVal.num 0)] = 0 := by
    simp [mvThreshold, paramGet, pyFloatOf]
  have hm2 : parse_min_value (some "-1") = some (-1) := by
    simp [parse_min_value, pyStrip, pyFloatStr, stripChars, isWs,
      parseFloatParts, parseSign, splitDigits, digitsToNat, partsToRat]
  have he1 : isExemptRow mvRow1 = true := by decide
  have he2 : isExemptRow mvRow2 = false := by decide
  have hmc2 : minCellOf mvRow2 = some "-1" := by decide
  have hsv2 : statVarOf mvRow2 = some "Count_Person" := by decide
  have hfl : mvFailList 0 [mvRow1, mvRow2] = [⟨some "Count_Person", -1, 0⟩] := by
    simp only [mvFailList, List.filterMap_cons, he1, he2, if_true, if_false,
      Bool.false_eq_true, hmc2, hm2, List.filterMap_nil]
    rw [if_pos (by norm_num), hsv2]
  refine ⟨?_, ?_, ?_⟩
  · rw [h.1]
    decide
  · rw [h.2.1, hth]
    exact hfl
  · rw [h.2.2.1, hth]
    intro hempty
    rw [show mvCsvEx.rows = [mvRow1, mvRow2] from rfl, hfl] at hempty
    cases hempty

/-- C8: the min-value rule returns exactly one structured result in each
expected error case — CONFIG_ERROR with empty details when params lacks
the key minimum, DATA_ERROR with empty details when the summary header
lacks the MinValue column, and PASSED with all-zero counters when the
summary path is missing. -/
theorem min_value_error_results (sOpt : Option Csv) (csv : Csv)
    (params : List (String × PyVal)) (rid : String) :
    (hasKey params "minimum" = false →
      runMinValue sOpt params rid =
        { validation_name := rid
          status := "CONFIG_ERROR"
          message := "Configuration error: \x27minimum\x27 key not specified."
          details := .empty
          validation_params := params }) ∧
    (hasKey params "minimum" = true → csv.header.contains "MinValue" = false →
      runMinValue (some csv) params rid =
        { validation_name := rid
          status := "DATA_ERROR"
          message := "Input data is missing required column: \x27MinValue\x27."
          details := .empty
          validation_params := params }) ∧
    (hasKey params "minimum" = true →
      runMinValue none params rid =
        { validation_name := rid
          status := "PASSED"
          message := ""
          details := .counts 0 0 0
          validation_params := params }) := by
  refine ⟨?_, ?_, ?_⟩
  · intro hk
    unfold runMinValue
    rw [hk]
    rfl
  · intro hk hc
    have hc2 : ¬ ("MinValue" ∈ csv.header) := by
      intro hmem
      have h3 : csv.header.contains "MinValue" = true :=
        List.elem_eq_true_of_mem hmem
      rw [h3] at hc
      cases hc
    unfold runMinValue
    rw [hk]
    simp [hc2]
  · intro hk
    unfold runMinValue
    rw [hk]
    rfl

/-- C8 (witness): the three error shapes at concrete inputs — no minimum
key, a header without MinValue, and a missing summary file, through the
main theorem. -/
theorem min_value_error_results_witness :
    (runMinValue none [] "check_min_value" =
      { validation_name := "check_min_value"
        status := "CONFIG_ERROR"
        message := "Configuration error: \x27minimum\x27 key not specified."
        details := .empty
        validation_params := [] }) ∧
    (runMinValue (some ⟨["StatVar"], []⟩) [("minimum", PyVal.num 0)]
        "check_min_value" =
      { validation_name := "check_min_value"
        status := "DATA_ERROR"
        message := "Input data is missing required column: \x27MinValue\x27."
        details := .empty
        validation_params := [("minimum", PyVal.num 0)] }) ∧
    (runMinValue none [("minimum", PyVal.num 0)] "check_min_value" =
      { validation_name := "check_min_value"
        status := "PASSED"
        message := ""
        details := .counts 0 0 0
        validation_params := [("minimum", PyVal.num 0)] }) :=
  ⟨(min_value_error_results none ⟨["StatVar"], []⟩ [] "check_min_value").1
      (by decide),
   (min_value_error_results (some ⟨["StatVar"], []⟩) ⟨["StatVar"], []⟩
      [("minimum", PyVal.num 0)] "check_min_value").2.1 (by decide) (by decide),
   (min_value_error_results none ⟨["StatVar"], []⟩
      [("minimum", PyVal.num 0)] "check_min_value").2.2 (by decide)⟩

/-- Statuses other than CONFIG_ERROR are the only possibilities once the
minimum key is present. -/
theorem runMinValue_ne_config_error (s : Option Csv)
    (params : List (String × PyVal)) (rid : String)
    (hk : hasKey params "minimum" = true) :
    (runMinValue s params rid).status ≠ "CONFIG_ERROR" := by
  unfold runMinValue
  rw [hk]
  cases s with
  | none => simp
  | some csv =>
    by_cases hc : csv.header.contains "MinValue" = true
    · have hc2 : "MinValue" ∈ csv.header := by simpa using hc
      by_cases h0 : 0 < (mvScan (mvThreshold params) csv.rows).2.1
      · simp [hc2, h0]
      · simp [hc2, h0]
    · simp only [Bool.not_eq_true] at hc
      have hc2 : ¬ ("MinValue" ∈ csv.header) := by simpa using hc
      simp [hc2]

/-- Only the threshold value feeds the computation: two params dicts with
the key present and the same coerced threshold produce the same status,
message and details. -/
theorem runMinValue_threshold_only (s : Option Csv)
    (p1 p2 : List (String × PyVal)) (rid : String)
    (h1 : hasKey p1 "minimum" = true) (h2 : hasKey p2 "minimum" = true)
    (ht : mvThreshold p1 = mvThreshold p2) :
    (runMinValue s p1 rid).status = (runMinValue s p2 rid).status ∧
    (runMinValue s p1 rid).message = (runMinValue s p2 rid).message ∧
    (runMinValue s p1 rid).details = (runMinValue s p2 rid).details := by
  unfold runMinValue
  rw [h1, h2, ht]
  cases s with
  | none => exact ⟨rfl, rfl, rfl⟩
  | some csv =>
    by_cases hc : csv.header.contains "MinValue" = true
    · have hc2 : "MinValue" ∈ csv.header := by simpa using hc
      by_cases h0 : 0 < (mvScan (mvThreshold p2) csv.rows).2.1
      · simp [hc2, h0]
      · simp [hc2, h0]
    · simp only [Bool.not_eq_true] at hc
      have hc2 : ¬ ("MinValue" ∈ csv.header) := by simpa using hc
      simp [hc2]

/-- C10: when the minimum key is present but its value does not coerce to
a float, the rule does not return CONFIG_ERROR — it substitutes 0 and
produces the same status, message and details as a run with minimum 0. -/
theorem min_value_threshold_coercion (s : Option Csv)
    (params : List (String × PyVal)) (rid : String) (v : PyVal)
    (hv : paramGet params "minimum" = some v)
    (hnc : pyFloatOf v = none) :
    ((runMinValue s params rid).status ≠ "CONFIG_ERROR") ∧
    ((runMinValue s params rid).status
        = (runMinValue s [("minimum", PyVal.num 0)] rid).status) ∧
    ((runMinValue s params rid).message
        = (runMinValue s [("minimum", PyVal.num 0)] rid).message) ∧
    ((runMinValue s params rid).details
        = (runMinValue s [("minimum", PyVal.num 0)] rid).details) := by
  have hk : hasKey params "minimum" = true := by
    rcases hfind : params.find? (fun kv => kv.1 == "minimum") with _ | kv
    · rw [paramGet, hfind] at hv
      cases hv
    · have hp := List.find?_some hfind
      have hmem := List.mem_of_find?_eq_some hfind
      exact List.any_eq_true.mpr ⟨kv, hmem, hp⟩
  have ht : mvThreshold params = 0 := by
    rw [mvThreshold, hv]
    simp [hnc]
  have ht2 : mvThreshold [("minimum", PyVal.num 0)] = 0 := by
    simp [mvThreshold, paramGet, pyFloatOf]
  have hmain := runMinValue_threshold_only s params [("minimum", PyVal.num 0)]
    rid hk (by decide) (ht.trans ht2.symm)
  exact ⟨runMinValue_ne_config_error s params rid hk, hmain.1, hmain.2.1,
    hmain.2.2⟩

/-- C10 (witness): minimum "abc" is not coercible, yet the run is not a
CONFIG_ERROR and matches the minimum=0 run, through the theorem. -/
theorem min_value_threshold_coercion_witness :
    ((runMinValue none [("minimum", PyVal.str "abc")] "check_min_value").status
        ≠ "CONFIG_ERROR") ∧
    ((runMinValue none [("minimum", PyVal.str "abc")] "check_min_value").status
        = (runMinValue none [("minimum", PyVal.num 0)] "check_min_value").status) := by
  have h := min_value_threshold_coercion none [("minimum", PyVal.str "abc")]
    "check_min_value" (PyVal.str "abc") (by decide) (by decide)
  exact ⟨h.1, h.2.1⟩
